import Mathlib

/-!
# Verification of the posture_detector repository

Shallow embedding, in Lean 4, of the posture-stream server of the
`posture_detector` repository (files `scripts/camera_monitor.py`,
`scripts/cli.py`, `scripts/posture_detector.py`) together with proofs of
the behavioural properties claimed of it.

Modelling conventions:
* Python values used as subscriber identities are modelled by `PyVal`
  (integers and strings suffice for the claims); Python truthiness of such
  a value is `PyVal.truthy`.
* The camera device is modelled by one boolean environment parameter
  `camOk`: `cv2.VideoCapture(idx)` produces a capture object whose
  `isOpened()` is `camOk`.  A per-tick frame read is an `Option Frame`
  (`none` models `ret == False`).
* MediaPipe landmark coordinates are real-valued; they are embedded as
  rationals, and Python's `int()` (truncation toward zero) as `Int.tdiv`
  on numerator and denominator.
* The CLI's JSON dictionaries are association lists `List (String × JsonVal)`
  in insertion order; writing to stdout is modelled as appending the
  dictionary to an event trace (writes are assumed to succeed, as the
  claims under study do not concern stdout failures).
-/

namespace PostureRepo

/-- A Python value usable as a subscriber identity token. -/
inductive PyVal where
  | int : Int → PyVal
  | str : String → PyVal
deriving DecidableEq, Repr

/-- Python truthiness of a `PyVal`: `0` and `""` are falsy. -/
def PyVal.truthy : PyVal → Bool
  | .int n => n != 0
  | .str s => s != ""

/-- A `cv2.VideoCapture` object: it exists as an object even when the
device failed to open; `isOpened` records whether opening succeeded. -/
structure Cap where
  isOpened : Bool
deriving DecidableEq, Repr

/-- The mutable state of a `CameraMonitor` instance that the claims are
about: `_subscribers`, `_active` and `_cap` (the grabber thread and the
lock are concurrency plumbing; all mutations happen under the single
lock, so the state machine below is the sequential semantics of the
critical sections). -/
structure MonitorState where
  subscribers : Finset PyVal
  active : Bool
  cap : Option Cap
deriving DecidableEq

/-- `CameraMonitor.__init__`: empty subscriber set, inactive, no capture. -/
def initMonitor : MonitorState :=
  { subscribers := ∅, active := false, cap := none }

/-- `sid = subscriber_id or id(self)`: Python `or` returns the right
operand when the left is `None` (modelled by `none`) or falsy. -/
def sidOf (selfId : Int) (subscriber_id : Option PyVal) : PyVal :=
  match subscriber_id with
  | none => .int selfId
  | some v => if v.truthy then v else .int selfId

/-- `CameraMonitor.subscribe(subscriber_id=None)`, body of the critical
section.  `camOk` is whether `cv2.VideoCapture(camera_index)` opens the
device; `selfId` is `id(self)` of the monitor.  Returns `.ok sid` on
normal completion and `.error` for the `RuntimeError` raised when a
freshly created capture is not opened.  Note the order of mutation in
the source: the identity is added, `_active` is set, and the capture
object is stored in `_cap` before `isOpened()` is checked, and the raise
rolls none of that back. -/
def subscribe (camOk : Bool) (selfId : Int) (st : MonitorState)
    (subscriber_id : Option PyVal) : Except String PyVal × MonitorState :=
  let sid := sidOf selfId subscriber_id
  let st1 : MonitorState :=
    { st with subscribers := insert sid st.subscribers, active := true }
  match st.cap with
  | none =>
      let st2 : MonitorState := { st1 with cap := some ⟨camOk⟩ }
      if camOk then (.ok sid, st2)
      else (.error "Could not open camera.", st2)
  | some _ => (.ok sid, st1)

/-- `CameraMonitor.unsubscribe(subscriber_id=None)`: a truthy identity is
discarded, a falsy or omitted one clears the whole set; when the set
becomes empty the grabber is stopped and the capture released. -/
def unsubscribe (st : MonitorState) (subscriber_id : Option PyVal) :
    MonitorState :=
  let subs :=
    match subscriber_id with
    | some v => if v.truthy then st.subscribers.erase v else ∅
    | none => ∅
  if subs = ∅ then { subscribers := subs, active := false, cap := none }
  else { st with subscribers := subs }

/-- Whether the capture resource is open: a capture object is stored and
its device opened. -/
def capOpen (st : MonitorState) : Bool :=
  match st.cap with
  | some c => c.isOpened
  | none => false

/-- One call in a subscribe/unsubscribe sequence. -/
inductive MonOp where
  | sub : Option PyVal → MonOp
  | unsub : Option PyVal → MonOp
deriving DecidableEq, Repr

/-- Apply one call to the monitor state (the returned stream or raised
exception is irrelevant to the state invariant). -/
def applyOp (camOk : Bool) (selfId : Int) (st : MonitorState) :
    MonOp → MonitorState
  | .sub arg => (subscribe camOk selfId st arg).2
  | .unsub arg => unsubscribe st arg

/-- Run a sequence of subscribe/unsubscribe calls from a state. -/
def runOps (camOk : Bool) (selfId : Int) :
    MonitorState → List MonOp → MonitorState
  | st, [] => st
  | st, op :: rest => runOps camOk selfId (applyOp camOk selfId st op) rest

/-- The monitor invariant of the spec: the capture resource is open iff
the subscriber set is non-empty, `active` equals non-emptiness of the
subscriber set, and the capture handle is non-null iff `active`. -/
def monitorInv (st : MonitorState) : Prop :=
  (capOpen st = true ↔ st.subscribers.Nonempty) ∧
  (st.active = true ↔ st.subscribers.Nonempty) ∧
  st.cap.isSome = st.active

/-! ## The posture detector (`scripts/posture_detector.py`)

MediaPipe's normalized landmark coordinates are floats; they are embedded
as rationals.  Python's `int(x)` truncates toward zero, which on a
rational is `tdiv` of numerator by denominator. -/

/-- One MediaPipe landmark (normalized coordinates). -/
structure Landmark where
  x : ℚ
  y : ℚ

/-- A MediaPipe face-landmark message: the mesh has a fixed set of
indexed landmarks, so the `landmark` sequence is total over indices. -/
structure FaceLandmarks where
  landmark : ℕ → Landmark

/-- A MediaPipe pose-landmark message (33 indexed landmarks, total over
the indices the detector uses). -/
structure PoseLandmarks where
  landmark : ℕ → Landmark

/-- MediaPipe `PoseLandmark.LEFT_SHOULDER`. -/
def LEFT_SHOULDER : ℕ := 11

/-- MediaPipe `PoseLandmark.RIGHT_SHOULDER`. -/
def RIGHT_SHOULDER : ℕ := 12

/-- MediaPipe `PoseLandmark.LEFT_EAR`. -/
def LEFT_EAR : ℕ := 7

/-- MediaPipe `PoseLandmark.RIGHT_EAR`. -/
def RIGHT_EAR : ℕ := 8

/-- Python `int()` applied to a rational: truncation toward zero. -/
def pyInt (q : ℚ) : ℤ :=
  q.num.tdiv q.den

/-- What `is_leaning_forward` consumes from one camera frame: the image
shape and the MediaPipe detection results (`multi_face_landmarks` is a
possibly empty list — `None` and the empty list are both falsy in
Python, so both are the empty list here; `pose_landmarks` is optional).
The landmark geometry is externally supplied by the MediaPipe models,
which the spec treats as a black-box collaborator. -/
structure Frame where
  height : ℕ
  width : ℕ
  multi_face_landmarks : List FaceLandmarks
  pose_landmarks : Option PoseLandmarks

/-- The `PostureDetector` instance fields used by the geometry:
`__init__` stores `sensitivity * 0.4` and `CHIN_INDEX = 175`. -/
structure PostureDetector where
  sensitivity : ℚ
  CHIN_INDEX : ℕ

/-- `PostureDetector.__init__(sensitivity=0.4)`. -/
def initDetector (sensitivity : ℚ) : PostureDetector :=
  { sensitivity := sensitivity * (0.4 : ℚ), CHIN_INDEX := 175 }

/-- `PostureDetector._get_chin_position`: the `if face_landmarks:` guard
is Python truthiness of the message object, i.e. whether it is `None`
(`Option`); the falsy branch raises `RuntimeError`. -/
def get_chin_position (D : PostureDetector)
    (face_landmarks : Option FaceLandmarks) (image_shape : ℕ × ℕ) :
    Except String (ℤ × ℤ) :=
  match face_landmarks with
  | some fl =>
      let chin_landmark := fl.landmark D.CHIN_INDEX
      let chin_x := pyInt (chin_landmark.x * image_shape.2)
      let chin_y := pyInt (chin_landmark.y * image_shape.1)
      .ok (chin_x, chin_y)
  | none => .error "No face landmarks detected for chin position."

/-- `PostureDetector._get_shoulder_positions`: computes both "upper
shoulder" points (shoulder pulled toward the ear by `sensitivity`) and
returns the higher one (smaller pixel `y`); raises when the landmark
message is `None`. -/
def get_shoulder_positions (D : PostureDetector)
    (pose_landmarks : Option PoseLandmarks) (image_shape : ℕ × ℕ) :
    Except String (ℤ × ℤ) :=
  match pose_landmarks with
  | some pl =>
      let left_shoulder := pl.landmark LEFT_SHOULDER
      let right_shoulder := pl.landmark RIGHT_SHOULDER
      let left_ear := pl.landmark LEFT_EAR
      let right_ear := pl.landmark RIGHT_EAR
      let left_upper_shoulder_x := pyInt (left_shoulder.x * image_shape.2)
      let left_upper_shoulder_y :=
        pyInt ((D.sensitivity * (left_ear.y - left_shoulder.y)
          + left_shoulder.y) * image_shape.1)
      let right_upper_shoulder_x := pyInt (right_shoulder.x * image_shape.2)
      let right_upper_shoulder_y :=
        pyInt ((D.sensitivity * (right_ear.y - right_shoulder.y)
          + right_shoulder.y) * image_shape.1)
      if left_upper_shoulder_y < right_upper_shoulder_y then
        .ok (left_upper_shoulder_x, left_upper_shoulder_y)
      else
        .ok (right_upper_shoulder_x, right_upper_shoulder_y)
  | none => .error "No pose landmarks detected for shoulder position."

/-- `PostureDetector.is_leaning_forward`: `chin_pos`/`shoulder_pos` stay
`None` when the corresponding landmark set is missing, and the helper is
called only inside the presence check; an exception from a helper would
propagate (`Except.error`).  A returned pair is a non-empty tuple, hence
truthy, so `if chin_pos and shoulder_pos:` is exactly the
`some _, some _` case; otherwise the function returns `None`. -/
def is_leaning_forward (D : PostureDetector) (frame : Frame) :
    Except String (Option Bool) :=
  let image_shape : ℕ × ℕ := (frame.height, frame.width)
  let chin_res : Except String (Option (ℤ × ℤ)) :=
    match frame.multi_face_landmarks with
    | [] => .ok none
    | fl :: _ =>
        match get_chin_position D (some fl) image_shape with
        | .ok p => .ok (some p)
        | .error e => .error e
  match chin_res with
  | .error e => .error e
  | .ok chin_pos =>
      let shoulder_res : Except String (Option (ℤ × ℤ)) :=
        match frame.pose_landmarks with
        | none => .ok none
        | some pl =>
            match get_shoulder_positions D (some pl) image_shape with
            | .ok p => .ok (some p)
            | .error e => .error e
      match shoulder_res with
      | .error e => .error e
      | .ok shoulder_pos =>
          match chin_pos, shoulder_pos with
          | some cp, some sp =>
              if cp.2 > sp.2 then .ok (some true) else .ok (some false)
          | _, _ => .ok none

/-! ## One tick of `CameraMonitor._posture_stream` -/

/-- What one iteration of the generator body does: terminate the stream
(`break`) or yield a value (`True`/`False`/`None`). -/
inductive TickOutcome where
  | terminated
  | yielded : Option Bool → TickOutcome
deriving DecidableEq, Repr

/-- One iteration of `_posture_stream(sid)`: break when the identity is
no longer subscribed or the capture is gone; otherwise a `RuntimeError`
from an unopened capture, a failed read (`readResult = none` models
`ret == False`), or the detector is caught and `None` is yielded;
otherwise the detector's verdict is yielded. -/
def posture_stream_tick (D : PostureDetector) (st : MonitorState)
    (sid : PyVal) (readResult : Option Frame) : TickOutcome :=
  if sid ∈ st.subscribers then
    match st.cap with
    | none => .terminated
    | some cap =>
        if cap.isOpened then
          match readResult with
          | none => .yielded none
          | some frame =>
              match is_leaning_forward D frame with
              | .ok v => .yielded v
              | .error _ => .yielded none
        else .yielded none
  else .terminated

/-! ## The CLI adapter (`scripts/cli.py`)

JSON dictionaries are association lists in insertion order; the CLI is
run in its default `json` output format.  `time.time()` is modelled by
an abstract clock that advances by one per emitted event. -/

/-- A JSON value as produced by `json.dumps` on the dictionaries the CLI
builds (`None` serializes to `null`). -/
inductive JsonVal where
  | num : ℚ → JsonVal
  | str : String → JsonVal
  | bool : Bool → JsonVal
  | null
deriving DecidableEq, Repr

/-- One emitted JSON event: the dictionary the CLI passed to
`_write_json`, keys in insertion order. -/
abbrev Event := List (String × JsonVal)

/-- Python truthiness of the `is_leaning` value the stream yielded:
`None` and `False` are falsy, `True` is truthy. -/
def optBoolTruthy : Option Bool → Bool
  | some b => b
  | none => false

/-- `json.dumps` of the `is_leaning` value: `None` becomes `null`. -/
def jsonOfOptBool : Option Bool → JsonVal
  | some b => .bool b
  | none => .null

/-- `PostureStreamCLI._output_error` (json format). -/
def error_data (timestamp : ℚ) (message : String) : Event :=
  [("timestamp", .num timestamp), ("type", .str "error"),
   ("message", .str message)]

/-- `PostureStreamCLI._output_posture` (json format): note
`"leaning" if is_leaning else "upright"` sends a `None` verdict to
`"upright"`. -/
def posture_data (timestamp : ℚ) (is_leaning : Option Bool) : Event :=
  [("timestamp", .num timestamp), ("type", .str "posture"),
   ("is_leaning", jsonOfOptBool is_leaning),
   ("posture", .str (if optBoolTruthy is_leaning then "leaning" else "upright"))]

/-- `PostureStreamCLI._output_status` (json format). -/
def status_data (timestamp : ℚ) (message : String) : Event :=
  [("timestamp", .num timestamp), ("type", .str "status"),
   ("message", .str message)]

/-- Whether an emitted event is an `Error` event. -/
def isErrorEvent (e : Event) : Bool :=
  decide (e.lookup "type" = some (.str "error"))

/-- The posture events the main loop emits for a list of yielded
verdicts, starting at clock value `t`. -/
def postureEventsFrom : ℕ → List (Option Bool) → List Event
  | _, [] => []
  | t, v :: vs => posture_data (t : ℚ) v :: postureEventsFrom (t + 1) vs

/-- The observable result of `PostureStreamCLI.run` plus `_cleanup`:
the event trace written to stdout, the value returned to `sys.exit`,
and the monitor's state after cleanup. -/
structure RunResult where
  events : List Event
  exitCode : ℕ
  finalState : MonitorState

/-- `PostureStreamCLI.run()` followed by `_cleanup()`, in json format.

* `camOk`: whether `cv2.VideoCapture` opens the device at subscribe
  time.
* `monitorId`/`cliId`: `id(self)` of the `CameraMonitor` and of the
  `PostureStreamCLI` (the CLI subscribes with
  `subscriber_id = id(self)`).
* `verdicts`: the finite prefix of values the subscribed generator
  yields while the loop runs.
* `signalAt = some k`: the signal handler has set `running = False`
  when the loop-top `if not self.running` check runs before emitting
  the `k`-th posture event (shutdown is observed there); `none`: no
  signal during this prefix.

On a subscribe failure, `_error_context` emits one error event and
re-raises, the `except RuntimeError` arm of `run` emits a second and
returns 1; `_cleanup` runs in `finally` on every path, unsubscribing
and emitting the final stopped status.  Writes to stdout are assumed
to succeed. -/
def cliRun (camOk : Bool) (monitorId cliId : Int)
    (verdicts : List (Option Bool)) (signalAt : Option ℕ) : RunResult :=
  let startEv := status_data 0 "Starting posture monitoring"
  let subRes := subscribe camOk monitorId initMonitor (some (.int cliId))
  match subRes.1 with
  | .error msg =>
      let subEv := error_data 1 ("Error during camera monitor subscription: " ++ msg)
      let topEv := error_data 2 ("Camera error: " ++ msg)
      let stopEv := status_data 3 "Posture monitoring stopped"
      { events := [startEv, subEv, topEv, stopEv],
        exitCode := 1,
        finalState := unsubscribe subRes.2 (some (.int cliId)) }
  | .ok _ =>
      let activeEv := status_data 1 "Camera monitor active"
      let consumed :=
        match signalAt with
        | none => verdicts
        | some k => verdicts.take k
      let postures := postureEventsFrom 2 consumed
      let stopEv := status_data ((2 + consumed.length : ℕ) : ℚ) "Posture monitoring stopped"
      { events := startEv :: activeEv :: (postures ++ [stopEv]),
        exitCode := 0,
        finalState := unsubscribe subRes.2 (some (.int cliId)) }

theorem monitorInv_init : monitorInv initMonitor := by
  refine ⟨?_, ?_, rfl⟩ <;>
    simp [initMonitor, capOpen, Finset.not_nonempty_empty]

theorem monitorInv_applyOp (selfId : Int) (st : MonitorState)
    (h : monitorInv st) (op : MonOp) : monitorInv (applyOp true selfId st op) := by
  obtain ⟨hopen, hact, hcap⟩ := h
  cases op with
  | sub arg =>
      simp only [applyOp, subscribe]
      cases hc : st.cap with
      | none =>
          refine ⟨?_, ?_, ?_⟩ <;>
            simp [capOpen, Finset.insert_nonempty]
      | some c =>
          have hopenc : c.isOpened = true := by
            have : st.subscribers.Nonempty := by
              apply hact.mp
              have : st.cap.isSome = true := by simp [hc]
              rw [hcap] at this; exact this
            have := hopen.mpr this
            simpa [capOpen, hc] using this
          refine ⟨?_, ?_, ?_⟩ <;>
            simp [capOpen, hc, hopenc, Finset.insert_nonempty]
  | unsub arg =>
      simp only [applyOp, unsubscribe]
      by_cases hempty :
          (match arg with
            | some v => if v.truthy then st.subscribers.erase v else ∅
            | none => (∅ : Finset PyVal)) = ∅
      · rw [if_pos hempty]
        refine ⟨?_, ?_, rfl⟩ <;>
          simp [capOpen, hempty, Finset.not_nonempty_empty]
      · rw [if_neg hempty]
        have hne : st.subscribers.Nonempty := by
          cases arg with
          | none => exact absurd rfl hempty
          | some v =>
              by_cases ht : v.truthy
              · simp only [ht, if_true] at hempty
                rcases Finset.nonempty_iff_ne_empty.mpr hempty with hne'
                have : (st.subscribers.erase v).Nonempty :=
                  Finset.nonempty_iff_ne_empty.mpr hempty
                exact this.mono (Finset.erase_subset v st.subscribers)
              · simp only [ht, if_false] at hempty
                exact absurd rfl hempty
        have hnew :
            (match arg with
              | some v => if v.truthy then st.subscribers.erase v else ∅
              | none => (∅ : Finset PyVal)).Nonempty :=
          Finset.nonempty_iff_ne_empty.mpr hempty
        exact ⟨⟨fun _ => hnew, fun _ => hopen.mpr hne⟩,
          ⟨fun _ => hnew, fun _ => hact.mpr hne⟩, hcap⟩

theorem monitorInv_runOps (selfId : Int) (ops : List MonOp)
    (st : MonitorState) (h : monitorInv st) :
    monitorInv (runOps true selfId st ops) := by
  induction ops generalizing st with
  | nil => exact h
  | cons op rest ih =>
      exact ih _ (monitorInv_applyOp selfId st h op)

theorem postureEventsFrom_length (t : ℕ) (vs : List (Option Bool)) :
    (postureEventsFrom t vs).length = vs.length := by
  induction vs generalizing t with
  | nil => rfl
  | cons v vs ih =>
      show (posture_data (t : ℚ) v :: postureEventsFrom (t + 1) vs).length = _
      simp [ih]

theorem postureEventsFrom_getElem? (t : ℕ) (vs : List (Option Bool)) (i : ℕ) :
    (postureEventsFrom t vs)[i]?
      = vs[i]?.map (fun v => posture_data ((t + i : ℕ) : ℚ) v) := by
  induction vs generalizing t i with
  | nil => simp [postureEventsFrom]
  | cons v vs ih =>
      cases i with
      | zero =>
          show (posture_data (t : ℚ) v :: postureEventsFrom (t + 1) vs)[0]? = _
          simp
      | succ n =>
          show (posture_data (t : ℚ) v :: postureEventsFrom (t + 1) vs)[n + 1]? = _
          rw [List.getElem?_cons_succ, ih (t + 1) n,
            show t + 1 + n = t + (n + 1) by omega, List.getElem?_cons_succ]

theorem subscribe_omitted_ok (selfId : Int) (st : MonitorState) :
    (subscribe true selfId st none).1 = .ok (.int selfId) := by
  cases h : MonitorState.cap st <;> simp [subscribe, sidOf, h]

theorem get_shoulder_positions_some_ok (D : PostureDetector)
    (pl : PoseLandmarks) (s : ℕ × ℕ) :
    ∃ p, get_shoulder_positions D (some pl) s = .ok p := by
  simp only [get_shoulder_positions]
  split <;> exact ⟨_, rfl⟩

theorem postureEventsFrom_all_no_code (t : ℕ) (vs : List (Option Bool)) :
    (postureEventsFrom t vs).all (fun e => (e.lookup "code").isNone) = true := by
  induction vs generalizing t with
  | nil => rfl
  | cons v vs ih =>
      show (posture_data (t : ℚ) v :: postureEventsFrom (t + 1) vs).all _ = true
      rw [List.all_cons, ih (t + 1)]
      rfl

/-- C1: for every sequence of subscribe/unsubscribe calls on a
`CameraMonitor` (in the environment where the camera device opens, so
every call completes), the state after each call satisfies: the capture
resource is open iff the subscriber set is non-empty, `active` equals
non-emptiness of the subscriber set, and the capture handle is non-null
iff `active`.  Since `ops` ranges over all sequences, this covers every
intermediate state. -/
theorem C1_capture_open_iff_subscribers (selfId : Int) (ops : List MonOp) :
    monitorInv (runOps true selfId initMonitor ops) :=
  monitorInv_runOps selfId ops initMonitor monitorInv_init

/-- C2, counterexample: running the CLI on a stream that yields one
`Indeterminate` (`None`) verdict emits no `Error` event at all; the tick
produces a posture event whose `"posture"` field is `"upright"`. -/
theorem C2_counterexample :
    (cliRun true 1 2 [none] none).events.filter isErrorEvent = [] ∧
    (cliRun true 1 2 [none] none).events[2]? = some (posture_data 2 none) ∧
    (posture_data 2 none).lookup "type" = some (.str "posture") ∧
    (posture_data 2 none).lookup "posture" = some (.str "upright") := by
  exact ⟨rfl, rfl, rfl, rfl⟩

/-- C2, amended: for every tick whose verdict is Indeterminate (the
stream yields `None`), the CLI adapter emits a posture event for that
tick with `is_leaning` null and `posture` reported as `"upright"` — not
an `Error` event — and the loop continues without exiting the process
(exit status of the run stays 0). -/
theorem C2_amended_indeterminate_tick (monitorId cliId : Int)
    (verdicts : List (Option Bool)) (i : ℕ) (h : verdicts[i]? = some none) :
    (cliRun true monitorId cliId verdicts none).events[i + 2]?
      = some (posture_data ((2 + i : ℕ) : ℚ) none) ∧
    (posture_data ((2 + i : ℕ) : ℚ) none).lookup "type" = some (.str "posture") ∧
    (posture_data ((2 + i : ℕ) : ℚ) none).lookup "is_leaning" = some .null ∧
    (posture_data ((2 + i : ℕ) : ℚ) none).lookup "posture" = some (.str "upright") ∧
    isErrorEvent (posture_data ((2 + i : ℕ) : ℚ) none) = false ∧
    (cliRun true monitorId cliId verdicts none).exitCode = 0 := by
  have hi : i < verdicts.length := by
    by_contra hge
    push_neg at hge
    rw [List.getElem?_eq_none hge] at h
    exact Option.noConfusion h
  refine ⟨?_, rfl, rfl, rfl, rfl, rfl⟩
  show (status_data 0 "Starting posture monitoring"
      :: status_data 1 "Camera monitor active"
      :: (postureEventsFrom 2 verdicts
          ++ [status_data ((2 + verdicts.length : ℕ) : ℚ)
                "Posture monitoring stopped"]))[i + 2]? = _
  rw [show i + 2 = (i + 1) + 1 from rfl, List.getElem?_cons_succ,
    List.getElem?_cons_succ,
    List.getElem?_append_left (by rw [postureEventsFrom_length]; exact hi),
    postureEventsFrom_getElem?, h]
  rfl

/-- Witness for C2's amended theorem at the concrete one-tick stream
`[None]`. -/
theorem C2_amended_witness :
    ([(none : Option Bool)])[0]? = some none ∧
    ((cliRun true 1 2 [none] none).events[0 + 2]?
      = some (posture_data ((2 + 0 : ℕ) : ℚ) none) ∧
    (posture_data ((2 + 0 : ℕ) : ℚ) none).lookup "type" = some (.str "posture") ∧
    (posture_data ((2 + 0 : ℕ) : ℚ) none).lookup "is_leaning" = some .null ∧
    (posture_data ((2 + 0 : ℕ) : ℚ) none).lookup "posture" = some (.str "upright") ∧
    isErrorEvent (posture_data ((2 + 0 : ℕ) : ℚ) none) = false ∧
    (cliRun true 1 2 [none] none).exitCode = 0) :=
  ⟨rfl, C2_amended_indeterminate_tick 1 2 [none] 0 rfl⟩

/-- C3, counterexample: in a concrete run every emitted event lacks a
`"code"` key entirely (the trace is startup status, active status, one
posture event, stopped status). -/
theorem C3_counterexample :
    (cliRun true 1 2 [some true] none).events.map (fun e => e.lookup "code")
      = [none, none, none, none] := by
  rfl

/-- C3, amended: no JSON event written by the CLI carries a `"code"`
field.  Posture events have exactly the keys
`timestamp, type, is_leaning, posture`; status and error events have
exactly the keys `timestamp, type, message`; and along any run of the
adapter every emitted event's `"code"` lookup is empty. -/
theorem C3_amended_no_code_field (ts : ℚ) (msg : String) (v : Option Bool)
    (camOk : Bool) (monitorId cliId : Int) (verdicts : List (Option Bool))
    (signalAt : Option ℕ) :
    (posture_data ts v).map Prod.fst = ["timestamp", "type", "is_leaning", "posture"] ∧
    (status_data ts msg).map Prod.fst = ["timestamp", "type", "message"] ∧
    (error_data ts msg).map Prod.fst = ["timestamp", "type", "message"] ∧
    (posture_data ts v).lookup "code" = none ∧
    (status_data ts msg).lookup "code" = none ∧
    (error_data ts msg).lookup "code" = none ∧
    (cliRun camOk monitorId cliId verdicts signalAt).events.all
      (fun e => (e.lookup "code").isNone) = true := by
  refine ⟨rfl, rfl, rfl, rfl, rfl, rfl, ?_⟩
  cases camOk with
  | false => rfl
  | true =>
      show (status_data 0 "Starting posture monitoring"
          :: status_data 1 "Camera monitor active"
          :: (postureEventsFrom 2 _ ++ [status_data _ "Posture monitoring stopped"])).all
            _ = true
      rw [List.all_cons, List.all_cons, List.all_append,
        postureEventsFrom_all_no_code]
      rfl

/-- C4, counterexample: two successive `subscribe()` calls on the same
monitor (with `id(self) = 7`), both with the identity omitted, both
return the identity `7` — the same identity, not two distinct ones. -/
theorem C4_counterexample :
    (subscribe true 7 initMonitor none).1 = .ok (.int 7) ∧
    (subscribe true 7 (subscribe true 7 initMonitor none).2 none).1
      = .ok (.int 7) := by
  exact ⟨rfl, rfl⟩

/-- C4, amended: for every call to `subscribe` with the identity
omitted, the monitor registers `id(self)` — so two distinct
`subscribe()` calls on the same monitor, both with identity omitted,
receive the same identity rather than two distinct ones. -/
theorem C4_amended_omitted_identity_is_self_id (selfId : Int)
    (st st' : MonitorState) :
    (subscribe true selfId st none).1 = .ok (.int selfId) ∧
    (subscribe true selfId st' none).1 = .ok (.int selfId) :=
  ⟨subscribe_omitted_ok selfId st, subscribe_omitted_ok selfId st'⟩

/-- C5: on every tick of `_posture_stream` for a still-subscribed
identity with a stored capture, if the frame read fails (the capture is
not opened, or `read` returns no frame), the generator yields `None`
for that tick and does not terminate the stream; the `RuntimeError` is
caught inside the loop body (the tick function is total), so no
exception escapes the sampling loop. -/
theorem C5_tick_read_failure_yields_none (D : PostureDetector)
    (st : MonitorState) (sid : PyVal) (c : Cap) (readResult : Option Frame)
    (hmem : sid ∈ st.subscribers) (hcap : st.cap = some c)
    (hfail : c.isOpened = false ∨ readResult = none) :
    posture_stream_tick D st sid readResult = .yielded none ∧
    posture_stream_tick D st sid readResult ≠ .terminated := by
  have hy : posture_stream_tick D st sid readResult = .yielded none := by
    rcases hfail with hf | hf
    · simp [posture_stream_tick, hmem, hcap, hf]
    · cases hb : c.isOpened <;>
        simp [posture_stream_tick, hmem, hcap, hb, hf]
  exact ⟨hy, by rw [hy]; exact fun hcontra => TickOutcome.noConfusion hcontra⟩

/-- Witness for C5 at a concrete subscribed state whose read fails. -/
theorem C5_witness :
    (PyVal.int 2) ∈ (subscribe true 1 initMonitor (some (.int 2))).2.subscribers ∧
    (subscribe true 1 initMonitor (some (.int 2))).2.cap = some ⟨true⟩ ∧
    (posture_stream_tick (initDetector 0.4)
        (subscribe true 1 initMonitor (some (.int 2))).2 (.int 2) none
      = .yielded none ∧
    posture_stream_tick (initDetector 0.4)
        (subscribe true 1 initMonitor (some (.int 2))).2 (.int 2) none
      ≠ .terminated) :=
  ⟨by decide, rfl,
    C5_tick_read_failure_yields_none (initDetector 0.4)
      (subscribe true 1 initMonitor (some (.int 2))).2 (.int 2) ⟨true⟩ none
      (by decide) rfl (Or.inr rfl)⟩

/-- C6, counterexample: with a camera that cannot be opened,
`subscribe` raises, but the run emits two `Error` events (one from
`_error_context`, which re-raises, and one from the top-level
`except RuntimeError` arm) — not exactly one — before exiting with 1. -/
theorem C6_counterexample :
    (subscribe false 1 initMonitor (some (.int 2))).1
      = .error "Could not open camera." ∧
    (cliRun false 1 2 [] none).events.countP isErrorEvent = 2 ∧
    (cliRun false 1 2 [] none).events.countP isErrorEvent ≠ 1 ∧
    (cliRun false 1 2 [] none).exitCode = 1 := by
  refine ⟨rfl, rfl, ?_, rfl⟩
  intro hcontra
  rw [show (cliRun false 1 2 [] none).events.countP isErrorEvent = 2 from rfl]
    at hcontra
  exact Nat.noConfusion (Nat.succ.inj hcontra)

/-- C6, amended: if the camera device cannot be opened at subscribe
time, `subscribe` fails with `RuntimeError("Could not open camera.")`,
the CLI adapter emits exactly two `Error` events for that failure (one
from the subscription error context and one from the top-level
`RuntimeError` handler), and the process exits with code 1. -/
theorem C6_amended_two_error_events (monitorId cliId : Int)
    (verdicts : List (Option Bool)) (signalAt : Option ℕ) :
    (subscribe false monitorId initMonitor (some (.int cliId))).1
      = .error "Could not open camera." ∧
    (cliRun false monitorId cliId verdicts signalAt).events.countP isErrorEvent
      = 2 ∧
    (cliRun false monitorId cliId verdicts signalAt).exitCode = 1 := by
  exact ⟨rfl, rfl, rfl⟩

/-- C7: with the shutdown flag observed before the `k`-th posture
emission, the run's trace consists of the two startup status events,
posture events for exactly the first `k` yielded verdicts, and one
final `Status("Posture monitoring stopped")`; after the observation
point no posture event occurs, the last event is the stopped status,
the process exits 0, and cleanup has unsubscribed (subscriber set empty,
capture released). -/
theorem C7_shutdown_clean_exit (monitorId cliId : Int)
    (verdicts : List (Option Bool)) (k : ℕ) :
    (cliRun true monitorId cliId verdicts (some k)).events
      = status_data 0 "Starting posture monitoring"
        :: status_data 1 "Camera monitor active"
        :: (postureEventsFrom 2 (verdicts.take k)
            ++ [status_data ((2 + (verdicts.take k).length : ℕ) : ℚ)
                  "Posture monitoring stopped"]) ∧
    (cliRun true monitorId cliId verdicts (some k)).events.drop
        ((verdicts.take k).length + 2)
      = [status_data ((2 + (verdicts.take k).length : ℕ) : ℚ)
          "Posture monitoring stopped"] ∧
    (cliRun true monitorId cliId verdicts (some k)).events.getLast?
      = some (status_data ((2 + (verdicts.take k).length : ℕ) : ℚ)
          "Posture monitoring stopped") ∧
    (cliRun true monitorId cliId verdicts (some k)).exitCode = 0 ∧
    (cliRun true monitorId cliId verdicts (some k)).finalState.subscribers = ∅ ∧
    (cliRun true monitorId cliId verdicts (some k)).finalState.cap = none := by
  refine ⟨rfl, ?_, ?_, rfl, ?_, ?_⟩
  · show (status_data 0 "Starting posture monitoring"
        :: status_data 1 "Camera monitor active"
        :: (postureEventsFrom 2 (verdicts.take k)
            ++ [status_data ((2 + (verdicts.take k).length : ℕ) : ℚ)
                  "Posture monitoring stopped"])).drop
        ((verdicts.take k).length + 2) = _
    rw [show (verdicts.take k).length + 2 = ((verdicts.take k).length + 1) + 1
        from rfl,
      List.drop_succ_cons, List.drop_succ_cons,
      ← postureEventsFrom_length 2 (verdicts.take k), List.drop_left]
  · show (status_data 0 "Starting posture monitoring"
        :: status_data 1 "Camera monitor active"
        :: (postureEventsFrom 2 (verdicts.take k)
            ++ [status_data ((2 + (verdicts.take k).length : ℕ) : ℚ)
                  "Posture monitoring stopped"])).getLast? = _
    rw [show (status_data 0 "Starting posture monitoring"
        :: status_data 1 "Camera monitor active"
        :: (postureEventsFrom 2 (verdicts.take k)
            ++ [status_data ((2 + (verdicts.take k).length : ℕ) : ℚ)
                  "Posture monitoring stopped"]))
      = (status_data 0 "Starting posture monitoring"
          :: status_data 1 "Camera monitor active"
          :: postureEventsFrom 2 (verdicts.take k))
        ++ [status_data ((2 + (verdicts.take k).length : ℕ) : ℚ)
              "Posture monitoring stopped"] by simp,
      List.getLast?_concat]
  · show (unsubscribe (subscribe true monitorId initMonitor
        (some (.int cliId))).2 (some (.int cliId))).subscribers = ∅
    by_cases ht : (PyVal.int cliId).truthy
    · simp [unsubscribe, subscribe, sidOf, initMonitor, ht,
        Finset.erase_singleton]
    · simp [unsubscribe, ht]
  · show (unsubscribe (subscribe true monitorId initMonitor
        (some (.int cliId))).2 (some (.int cliId))).cap = none
    by_cases ht : (PyVal.int cliId).truthy
    · simp [unsubscribe, subscribe, sidOf, initMonitor, ht,
        Finset.erase_singleton]
    · simp [unsubscribe, ht]

/-- C8: when the camera cannot be opened, `subscribe` on a monitor with
no stored capture raises `RuntimeError("Could not open camera.")`, yet
the mutation is not rolled back: the computed identity is in the
subscriber set, `_active` is `True`, and the failed (unopened) capture
object remains stored in `_cap`. -/
theorem C8_failed_subscribe_keeps_mutation (selfId : Int)
    (st : MonitorState) (arg : Option PyVal) (h : st.cap = none) :
    (subscribe false selfId st arg).1 = .error "Could not open camera." ∧
    sidOf selfId arg ∈ (subscribe false selfId st arg).2.subscribers ∧
    (subscribe false selfId st arg).2.active = true ∧
    (subscribe false selfId st arg).2.cap = some ⟨false⟩ := by
  refine ⟨?_, ?_, ?_, ?_⟩ <;> simp [subscribe, h]

/-- Witness for C8 at a fresh monitor and a concrete identity. -/
theorem C8_witness :
    initMonitor.cap = none ∧
    ((subscribe false 5 initMonitor (some (.int 3))).1
        = .error "Could not open camera." ∧
    sidOf 5 (some (.int 3)) ∈ (subscribe false 5 initMonitor
        (some (.int 3))).2.subscribers ∧
    (subscribe false 5 initMonitor (some (.int 3))).2.active = true ∧
    (subscribe false 5 initMonitor (some (.int 3))).2.cap = some ⟨false⟩) :=
  ⟨rfl, C8_failed_subscribe_keeps_mutation 5 initMonitor (some (.int 3)) rfl⟩

/-- C9: a falsy identity token (such as `0` or `""`) is treated as
omitted: `subscribe` computes the identity `id(self)` and registers it
instead of the supplied token, and `unsubscribe` with a falsy token
takes the clear-all branch, emptying the whole subscriber set. -/
theorem C9_falsy_identity_as_omitted (camOk : Bool) (selfId : Int)
    (st : MonitorState) (v : PyVal) (h : v.truthy = false) :
    sidOf selfId (some v) = .int selfId ∧
    (subscribe camOk selfId st (some v)).2.subscribers
      = insert (.int selfId) st.subscribers ∧
    (unsubscribe st (some v)).subscribers = ∅ := by
  refine ⟨by simp [sidOf, h], ?_, by simp [unsubscribe, h]⟩
  cases hc : MonitorState.cap st <;> cases camOk <;>
    simp [subscribe, sidOf, h, hc]

/-- Witness for C9 at the falsy tokens `0` and `""`. -/
theorem C9_witness :
    (PyVal.int 0).truthy = false ∧
    (PyVal.str "").truthy = false ∧
    sidOf 9 (some (.int 0)) = .int 9 ∧
    (subscribe true 9 initMonitor (some (.int 0))).2.subscribers
      = insert (.int 9) initMonitor.subscribers ∧
    (unsubscribe (subscribe true 9 initMonitor (some (.int 0))).2
        (some (.str ""))).subscribers = ∅ :=
  ⟨rfl, rfl,
    (C9_falsy_identity_as_omitted true 9 initMonitor (.int 0) rfl).1,
    (C9_falsy_identity_as_omitted true 9 initMonitor (.int 0) rfl).2.1,
    (C9_falsy_identity_as_omitted true 9
      (subscribe true 9 initMonitor (some (.int 0))).2 (.str "") rfl).2.2⟩

/-- C10: `is_leaning_forward` never raises — its helpers are invoked
only after the presence checks, so their `RuntimeError` branches are
unreachable — and when either landmark set is missing it returns the
indeterminate value `None`. -/
theorem C10_is_leaning_forward_never_raises (D : PostureDetector)
    (frame : Frame) :
    (∃ r, is_leaning_forward D frame = .ok r) ∧
    (frame.multi_face_landmarks = [] ∨ frame.pose_landmarks = none →
      is_leaning_forward D frame = .ok none) := by
  cases hf : frame.multi_face_landmarks with
  | nil =>
      cases hp : frame.pose_landmarks with
      | none => exact ⟨⟨none, by simp [is_leaning_forward, hf, hp]⟩,
          fun _ => by simp [is_leaning_forward, hf, hp]⟩
      | some pl =>
          obtain ⟨p, hsp⟩ :=
            get_shoulder_positions_some_ok D pl (frame.height, frame.width)
          refine ⟨⟨none, ?_⟩, fun _ => ?_⟩ <;>
            simp [is_leaning_forward, hf, hp, hsp]
  | cons fl rest =>
      cases hp : frame.pose_landmarks with
      | none =>
          refine ⟨⟨none, ?_⟩, fun _ => ?_⟩
          · simp [is_leaning_forward, hf, hp, get_chin_position]
          · simp [is_leaning_forward, hf, hp, get_chin_position]
      | some pl =>
          obtain ⟨p, hsp⟩ :=
            get_shoulder_positions_some_ok D pl (frame.height, frame.width)
          constructor
          · simp only [is_leaning_forward, hf, hp, get_chin_position, hsp]
            split <;> exact ⟨_, rfl⟩
          · intro hmiss
            rcases hmiss with hmiss | hmiss
            · exact List.noConfusion hmiss
            · exact Option.noConfusion hmiss

/-- Witness for C10 at a concrete frame with no detected landmarks. -/
theorem C10_witness :
    ((⟨480, 640, [], none⟩ : Frame).multi_face_landmarks = [] ∨
      (⟨480, 640, [], none⟩ : Frame).pose_landmarks = none) ∧
    is_leaning_forward (initDetector 0.4) ⟨480, 640, [], none⟩ = .ok none :=
  ⟨Or.inl rfl,
    (C10_is_leaning_forward_never_raises (initDetector 0.4)
      ⟨480, 640, [], none⟩).2 (Or.inl rfl)⟩

end PostureRepo
